import Mathlib

/-!
# Solar System catalogue service (`solar-system-main`)

A shallow embedding of the three route handlers of `app.js` and of the DynamoDB
stub of `test-setup.js`, followed by the properties proved about them.

Modelling conventions.

* The store's answers have the shapes the AWS SDK gives them: a scan resolves
  to an object with an optional `Items` array of attribute maps, a point lookup
  to an object with an optional `Item`; an attribute value is an object whose
  `S` and `N` properties, when present, are strings.  `none` stands for the
  JavaScript value `undefined`.
* A value thrown by the store is an `Error` carrying a string `message`.
* Express routing is outside the model: a handler receives `req.params.id`
  as the string Express extracted from the path.
* The response body is the JSON value a client reads, that is the argument of
  `res.json` after `JSON.stringify`.
* Every call of a client method is recorded, so that the number of store
  operations of a request can be stated.
-/

namespace SolarSystem

/-! ## JavaScript values -/

/-- A thrown JavaScript `Error`; only its `message` is read by `app.js`. -/
structure JSError where
  message : String
deriving DecidableEq

/-- The `TypeError` raised by reading property `name` of `undefined`
(message text of V8, the engine of Node.js). -/
def typeErrorReading (name : String) : JSError :=
  ⟨"Cannot read properties of undefined (reading '" ++ name ++ "')"⟩

/-- The `TypeError` raised by calling a property that is not a function. -/
def typeErrorNotAFunction (callee : String) : JSError :=
  ⟨callee ++ " is not a function"⟩

/-- The results `parseInt` can have: `NaN`, an infinity, or an integer-valued
double.  The two zeros are identified; `JSON.stringify` prints both as `0`. -/
inductive JSNumber where
  | nan
  | infinite (negative : Bool)
  | finite (value : Int)
deriving DecidableEq

/-- JSON values as read by a client of the service. Numbers are the
integer-valued ones, the only numbers this service emits. -/
inductive Json where
  | null
  | num (n : Int)
  | str (s : String)
  | arr (elems : List Json)
  | obj (fields : List (String × Json))

/-! ## `parseInt` (ECMAScript, radix argument absent) -/

/-- Code points of `StrWhiteSpaceChar`: white space and line terminators. -/
def whiteSpaceCodes : List Nat :=
  [0x9, 0xA, 0xB, 0xC, 0xD, 0x20, 0xA0, 0x1680,
   0x2000, 0x2001, 0x2002, 0x2003, 0x2004, 0x2005, 0x2006, 0x2007, 0x2008, 0x2009, 0x200A,
   0x2028, 0x2029, 0x202F, 0x205F, 0x3000, 0xFEFF]

def isStrWhiteSpaceChar (c : Char) : Bool :=
  whiteSpaceCodes.contains c.toNat

/-- Value of a character as a digit of radix 36. -/
def digitValue (c : Char) : Option Nat :=
  if 48 ≤ c.toNat ∧ c.toNat ≤ 57 then some (c.toNat - 48)
  else if 97 ≤ c.toNat ∧ c.toNat ≤ 122 then some (c.toNat - 87)
  else if 65 ≤ c.toNat ∧ c.toNat ≤ 90 then some (c.toNat - 55)
  else none

/-- Value of a character as a digit of radix `R`, if it is one. -/
def radixDigit (R : Nat) (c : Char) : Option Nat :=
  match digitValue c with
  | some d => if d < R then some d else none
  | none => none

/-- Digit values of the longest prefix made of radix-`R` digits. -/
def takeDigits (R : Nat) : List Char → List Nat
  | [] => []
  | c :: rest =>
    match radixDigit R c with
    | some d => d :: takeDigits R rest
    | none => []

/-- The integer written by a list of digit values, most significant first. -/
def mathInt (R : Nat) (digits : List Nat) : Nat :=
  digits.foldl (fun acc d => acc * R + d) 0

/-- The double nearest to a natural number (ties to even), as an exact
integer; `none` when the result overflows to `Infinity`. -/
def roundToDouble (m : Nat) : Option Nat :=
  if m < 2 ^ 53 then some m
  else
    let e := Nat.log2 m - 52
    let q := m / 2 ^ e
    let r := m % 2 ^ e
    let half := 2 ^ (e - 1)
    let q1 := if half < r ∨ (r = half ∧ q % 2 = 1) then q + 1 else q
    if 2 ^ 1024 ≤ q1 * 2 ^ e then none else some (q1 * 2 ^ e)

/-- `ToString` of a value that is a string or `undefined`. -/
def toStringJS : Option String → String
  | some s => s
  | none => "undefined"

/-- Last steps of `parseInt`: the longest run of radix-`R` digits at the start
of `S` is read; no digit gives `NaN`, otherwise the value is converted to a
double and given its sign. -/
def readInteger (negative : Bool) (R : Nat) (S : List Char) : JSNumber :=
  let Z := takeDigits R S
  if Z.isEmpty then JSNumber.nan
  else
    match roundToDouble (mathInt R Z) with
    | none => JSNumber.infinite negative
    | some v => JSNumber.finite (if negative then -(v : Int) else (v : Int))

/-- Radix selection of `parseInt`: a `0x` or `0X` start is removed and selects
radix 16, otherwise the radix is 10. -/
def readRadix (negative : Bool) (S : List Char) : JSNumber :=
  if S.take 2 == ['0', 'x'] || S.take 2 == ['0', 'X'] then readInteger negative 16 (S.drop 2)
  else readInteger negative 10 S

/-- `parseInt(input)` with no radix argument: leading white space is skipped
and a sign is read and removed. -/
def parseInt (input : Option String) : JSNumber :=
  let trimmed := (toStringJS input).toList.dropWhile isStrWhiteSpaceChar
  readRadix (trimmed.head? == some '-')
    (if trimmed.head? == some '+' || trimmed.head? == some '-' then trimmed.tail else trimmed)

/-! ## The store interface (AWS SDK shapes) -/

/-- A DynamoDB attribute value; `app.js` reads only its `S` and `N`
properties. A value carrying another type tag has neither. -/
structure AttributeValue where
  S : Option String
  N : Option String
deriving DecidableEq

/-- A record: attribute names with their tagged values. -/
abbrev AttributeMap := List (String × AttributeValue)

structure ScanInput where
  TableName : String
deriving DecidableEq

structure GetItemInput where
  TableName : String
  Key : AttributeMap
deriving DecidableEq

structure ScanOutput where
  Items : Option (List AttributeMap)
deriving DecidableEq

structure GetItemOutput where
  Item : Option AttributeMap
deriving DecidableEq

/-- The two client methods `app.js` calls, each given by the outcome of
awaiting `method(params).promise()`. -/
structure StoreMethods where
  scan : ScanInput → Except JSError ScanOutput
  getItem : GetItemInput → Except JSError GetItemOutput

/-- The object bound to `dynamoDB` in `app.js`: the properties a handler may
look up on it. `none` means the property is `undefined`. -/
structure DynamoDBObject where
  scan : Option (ScanInput → Except JSError ScanOutput)
  getItem : Option (GetItemInput → Except JSError GetItemOutput)
  DocumentClient : Option (Unit → StoreMethods)

/-- A client object whose `scan` and `getItem` are the given methods. -/
def clientOf (m : StoreMethods) : DynamoDBObject :=
  { scan := some m.scan, getItem := some m.getItem, DocumentClient := none }

/-- `base.N` where `base` may be `undefined`. -/
def getN : Option AttributeValue → Except JSError (Option String)
  | none => .error (typeErrorReading "N")
  | some v => .ok v.N

/-- `base.S` where `base` may be `undefined`. -/
def getS : Option AttributeValue → Except JSError (Option String)
  | none => .error (typeErrorReading "S")
  | some v => .ok v.S

/-! ## Handler execution: recorded store calls and `try`/`catch` -/

inductive StoreCall where
  | scan (params : ScanInput)
  | getItem (params : GetItemInput)
deriving DecidableEq

/-- A computation inside a handler: the store calls it issued and either its
value or the error it threw. -/
structure Run (α : Type) where
  calls : List StoreCall
  outcome : Except JSError α

def Run.pure {α : Type} (a : α) : Run α := ⟨[], .ok a⟩

def Run.bind {α β : Type} (x : Run α) (f : α → Run β) : Run β :=
  match x.outcome with
  | .error e => ⟨x.calls, .error e⟩
  | .ok a => ⟨x.calls ++ (f a).calls, (f a).outcome⟩

instance : Monad Run where
  pure := Run.pure
  bind := Run.bind

/-- A step that issues no store call. -/
def Run.lift {α : Type} (x : Except JSError α) : Run α := ⟨[], x⟩

/-- `await dynamoDB.scan(params).promise()`. -/
def awaitScan (dynamoDB : DynamoDBObject) (params : ScanInput) : Run ScanOutput :=
  match dynamoDB.scan with
  | none => ⟨[], .error (typeErrorNotAFunction "dynamoDB.scan")⟩
  | some f => ⟨[StoreCall.scan params], f params⟩

/-- `await dynamoDB.getItem(params).promise()`. -/
def awaitGetItem (dynamoDB : DynamoDBObject) (params : GetItemInput) : Run GetItemOutput :=
  match dynamoDB.getItem with
  | none => ⟨[], .error (typeErrorNotAFunction "dynamoDB.getItem")⟩
  | some f => ⟨[StoreCall.getItem params], f params⟩

/-! ## Responses -/

inductive Body where
  | json (value : Json)
  | file (content : String)

structure Response where
  status : Nat
  body : Body

/-- What a request did: the store calls issued and the response sent. -/
structure Exchange where
  calls : List StoreCall
  response : Response

/-- A handler body of the form `try { ... } catch (error) { ... }`. -/
def tryCatch (body : Run Response) (handler : JSError → Response) : Exchange :=
  match body.outcome with
  | .ok r => ⟨body.calls, r⟩
  | .error e => ⟨body.calls, handler e⟩

/-- The object literal built by both API handlers, before serialisation. -/
structure Planet where
  id : JSNumber
  name : Option String
  description : Option String
  image : Option String
  velocity : Option String
  distance : Option String
deriving DecidableEq

/-- `JSON.stringify` of a number-valued property: `NaN` and the infinities
are written `null`. -/
def numberField (key : String) : JSNumber → List (String × Json)
  | JSNumber.finite n => [(key, Json.num n)]
  | _ => [(key, Json.null)]

/-- `JSON.stringify` of a property that is a string or `undefined`: an
`undefined` property is left out. -/
def stringField (key : String) : Option String → List (String × Json)
  | some s => [(key, Json.str s)]
  | none => []

/-- The body `res.json(planet)` sends. -/
def Planet.toJson (p : Planet) : Json :=
  Json.obj (numberField "id" p.id ++ stringField "name" p.name ++
    stringField "description" p.description ++ stringField "image" p.image ++
    stringField "velocity" p.velocity ++ stringField "distance" p.distance)

/-- `res.json(value)`: status 200 unless set before. -/
def resJson (status : Nat) (value : Json) : Response := ⟨status, Body.json value⟩

/-! ## `app.js` -/

/-- The callback of `data.Items.map` in the list handler (lines 38-45). -/
def listItemMapper (item : AttributeMap) : Except JSError Planet := do
  let id ← getN (item.lookup "id")
  let name ← getS (item.lookup "name")
  let description ← getS (item.lookup "description")
  let image ← getS (item.lookup "image")
  let velocity ← getS (item.lookup "velocity")
  let distance ← getS (item.lookup "distance")
  pure { id := parseInt id, name := name, description := description, image := image,
         velocity := velocity, distance := distance }

/-- `Items.map(callback)`: the callback is applied to the records in order and
the first exception it throws ends the whole call. -/
def mapItems (callback : AttributeMap → Except JSError Planet) :
    List AttributeMap → Except JSError (List Planet)
  | [] => .ok []
  | item :: rest =>
    match callback item with
    | .error e => .error e
    | .ok p =>
      match mapItems callback rest with
      | .error e => .error e
      | .ok ps => .ok (p :: ps)

/-- The object literal `planet` of the get-by-id handler (lines 70-77). -/
def planetOfItem (Item : AttributeMap) : Except JSError Planet := do
  let id ← getN (Item.lookup "id")
  let name ← getS (Item.lookup "name")
  let description ← getS (Item.lookup "description")
  let image ← getS (Item.lookup "image")
  let velocity ← getS (Item.lookup "velocity")
  let distance ← getS (Item.lookup "distance")
  pure { id := parseInt id, name := name, description := description, image := image,
         velocity := velocity, distance := distance }

/-- Handler of `GET /`: `res.sendFile` of `views/index.html`. The content of
that file, which the repository ships outside the sources modelled here, is the
parameter `indexHtml`. -/
def getHome (indexHtml : String) (_dynamoDB : DynamoDBObject) : Exchange :=
  ⟨[], ⟨200, Body.file indexHtml⟩⟩

/-- The `try` block of the list handler. -/
def getPlanetsTry (dynamoDB : DynamoDBObject) (tableName : String) : Run Response := do
  let params : ScanInput := { TableName := tableName }
  let data ← awaitScan dynamoDB params
  match data.Items with
  | none => pure (resJson 200 (Json.arr []))
  | some Items =>
    if Items.length = 0 then pure (resJson 200 (Json.arr []))
    else do
      let planets ← Run.lift (mapItems listItemMapper Items)
      pure (resJson 200 (Json.arr (planets.map Planet.toJson)))

/-- Handler of `GET /api/planets`. -/
def getPlanets (dynamoDB : DynamoDBObject) (tableName : String) : Exchange :=
  tryCatch (getPlanetsTry dynamoDB tableName) fun error =>
    resJson 500 (Json.obj [("error", Json.str "Failed to fetch planets"),
                           ("details", Json.str error.message)])

/-- The request the get-by-id handler builds from `req.params.id`. -/
def getItemParams (tableName : String) (id : String) : GetItemInput :=
  { TableName := tableName, Key := [("id", { S := none, N := some id })] }

/-- The `try` block of the get-by-id handler. -/
def getPlanetByIdTry (dynamoDB : DynamoDBObject) (tableName : String) (id : String) :
    Run Response := do
  let params := getItemParams tableName id
  let data ← awaitGetItem dynamoDB params
  match data.Item with
  | none => pure (resJson 404 (Json.obj [("error", Json.str "Planet not found")]))
  | some Item => do
    let planet ← Run.lift (planetOfItem Item)
    pure (resJson 200 planet.toJson)

/-- Handler of `GET /api/planets/:id`; `id` is `req.params.id`. -/
def getPlanetById (dynamoDB : DynamoDBObject) (tableName : String) (id : String) : Exchange :=
  tryCatch (getPlanetByIdTry dynamoDB tableName id) fun error =>
    resJson 500 (Json.obj [("error", Json.str "Failed to fetch planet"),
                           ("details", Json.str error.message)])

/-! ## `test-setup.js` -/

/-- A string-tagged attribute value `{ S: s }`. -/
def attrS (s : String) : AttributeValue := { S := some s, N := none }

/-- A number-tagged attribute value `{ N: n }`. -/
def attrN (n : String) : AttributeValue := { S := none, N := some n }

/-- The sample planet data of `configureDynamoDBForTesting`. -/
def planets : List AttributeMap :=
  [ [ ("id", attrN "1"),
      ("name", attrS "Mercury"),
      ("description", attrS "Mercury is the smallest planet in our solar system."),
      ("image", attrS "https://example.com/mercury.jpg"),
      ("velocity", attrS "47.87 km/s"),
      ("distance", attrS "57.91 million km") ],
    [ ("id", attrN "2"),
      ("name", attrS "Venus"),
      ("description", attrS "Venus is the second planet from the Sun."),
      ("image", attrS "https://example.com/venus.jpg"),
      ("velocity", attrS "35.02 km/s"),
      ("distance", attrS "108.2 million km") ] ]

/-- `list.find(p => p.id.N === id)`. -/
def findById (id : Option String) : List AttributeMap → Except JSError (Option AttributeMap)
  | [] => .ok none
  | p :: rest =>
    match getN (p.lookup "id") with
    | .error e => .error e
    | .ok n => if n = id then .ok (some p) else findById id rest

/-- The object `documentClientStub`: `scan` resolves to all sample planets,
`getItem` to the sample planet whose `id.N` is the key, or to `{}`. -/
def documentClientStub : StoreMethods :=
  { scan := fun _ => .ok { Items := some planets }
    getItem := fun params =>
      match getN (params.Key.lookup "id") with
      | .error e => .error e
      | .ok id =>
        match findById id planets with
        | .error e => .error e
        | .ok (some item) => .ok { Item := some item }
        | .ok none => .ok { Item := none } }

/-- What `new AWS.DynamoDB()` evaluates to once `configureDynamoDBForTesting`
has run `sinon.stub(AWS, 'DynamoDB').returns(...)`: the object given to
`returns`, whose only property is `DocumentClient`. -/
def stubbedDynamoDB : DynamoDBObject :=
  { scan := none, getItem := none, DocumentClient := some fun _ => documentClientStub }

/-- The table name `app.js` reads after `configureDynamoDBForTesting` has set
`process.env.DYNAMODB_TABLE`. -/
def testTableName : String := "solar-system-planets-test"

/-! ## Notions used to state the properties -/

/-- The six attribute names of a planet record. -/
def planetAttributes : List String :=
  ["id", "name", "description", "image", "velocity", "distance"]

/-- The record carries all six attributes (whatever their type tags). -/
def carriesSix (item : AttributeMap) : Bool :=
  planetAttributes.all fun k => (item.lookup k).isSome

/-- The attribute `key` of the record is string-tagged with value `s`. -/
def hasS (item : AttributeMap) (key s : String) : Prop :=
  ∃ v, item.lookup key = some v ∧ v.S = some s

/-- The record has `id` number-tagged with the string `idN` and the five other
attributes string-tagged with the given strings. -/
def isPlanetRecord (item : AttributeMap) (idN name description image velocity distance : String) :
    Prop :=
  (∃ v, item.lookup "id" = some v ∧ v.N = some idN) ∧
  hasS item "name" name ∧ hasS item "description" description ∧ hasS item "image" image ∧
  hasS item "velocity" velocity ∧ hasS item "distance" distance

/-- The record's `id` carries an `N` string that `parseInt` reads as a finite
integer, and its five other attributes are string-tagged. -/
def wellTagged (item : AttributeMap) : Prop :=
  (∃ v idN n, item.lookup "id" = some v ∧ v.N = some idN ∧ parseInt (some idN) = JSNumber.finite n) ∧
  (∃ s, hasS item "name" s) ∧ (∃ s, hasS item "description" s) ∧ (∃ s, hasS item "image" s) ∧
  (∃ s, hasS item "velocity" s) ∧ (∃ s, hasS item "distance" s)

/-- The store record `{id: {N: idN}, name: {S: a}, ...}` with exactly the six
attributes. -/
def planetRecord (idN name description image velocity distance : String) : AttributeMap :=
  [("id", attrN idN), ("name", attrS name), ("description", attrS description),
   ("image", attrS image), ("velocity", attrS velocity), ("distance", attrS distance)]

/-- The Planet JSON object `{id, name, description, image, velocity, distance}`. -/
def planetJson (id : Int) (name description image velocity distance : String) : Json :=
  Json.obj [("id", Json.num id), ("name", Json.str name), ("description", Json.str description),
    ("image", Json.str image), ("velocity", Json.str velocity), ("distance", Json.str distance)]

def isNumber : Option Json → Bool
  | some (Json.num _) => true
  | _ => false

def isString : Option Json → Bool
  | some (Json.str _) => true
  | _ => false

/-- The Planet JSON shape: an object with exactly the six fields, `id` a
number and the five others strings (in any order). -/
def hasPlanetShape : Json → Bool
  | Json.obj fields =>
    fields.length == 6 && isNumber (fields.lookup "id") && isString (fields.lookup "name") &&
    isString (fields.lookup "description") && isString (fields.lookup "image") &&
    isString (fields.lookup "velocity") && isString (fields.lookup "distance")
  | _ => false

/-- The error body `{error, details}` of a 500 response. -/
def errorBody (error details : String) : Json :=
  Json.obj [("error", Json.str error), ("details", Json.str details)]

/-- The body `{error: "Planet not found"}` of a 404 response. -/
def notFoundBody : Json := Json.obj [("error", Json.str "Planet not found")]

/-- A record whose `id` lies outside the integers a double represents exactly. -/
def farRecord : AttributeMap :=
  planetRecord "9007199254740993" "Far" "A far planet." "https://example.com/far.jpg"
    "1.00 km/s" "9000 million km"

/-- A store holding only `farRecord`. -/
def farStore : StoreMethods :=
  { scan := fun _ => .ok { Items := some [farRecord] }
    getItem := fun _ => .ok { Item := some farRecord } }

/-- A record whose `name` attribute is number-tagged. -/
def oddRecord : AttributeMap :=
  [("id", attrN "1"), ("name", attrN "5"), ("description", attrS "Mercury"),
   ("image", attrS "https://example.com/mercury.jpg"), ("velocity", attrS "47.87 km/s"),
   ("distance", attrS "57.91 million km")]

/-- A store holding only `oddRecord`. -/
def oddStore : StoreMethods :=
  { scan := fun _ => .ok { Items := some [oddRecord] }
    getItem := fun _ => .ok { Item := some oddRecord } }

/-- A store whose every call throws. -/
def failingStore (m : String) : StoreMethods :=
  { scan := fun _ => .error ⟨m⟩
    getItem := fun _ => .error ⟨m⟩ }

/-- A second sample record lacking the `image` attribute. -/
def partialRecord : AttributeMap :=
  [("id", attrN "3"), ("name", attrS "Earth"), ("description", attrS "Our home planet."),
   ("velocity", attrS "29.78 km/s"), ("distance", attrS "149.6 million km")]

/-- A store whose scan returns a complete record followed by `partialRecord`. -/
def partialStore : StoreMethods :=
  { scan := fun _ => .ok { Items := some (planets ++ [partialRecord]) }
    getItem := fun _ => .ok { Item := some partialRecord } }

/-! ## Decimal numerals -/

theorem digitChar_facts (d : Nat) (hd : d < 10) :
    radixDigit 10 (Nat.digitChar d) = some d ∧
    isStrWhiteSpaceChar (Nat.digitChar d) = false ∧
    Nat.digitChar d ≠ '+' ∧ Nat.digitChar d ≠ '-' ∧
    Nat.digitChar d ≠ 'x' ∧ Nat.digitChar d ≠ 'X' := by
  interval_cases d <;> decide

theorem takeDigits_map_digitChar (ds : List Nat) (h : ∀ d ∈ ds, d < 10) :
    takeDigits 10 (ds.map Nat.digitChar) = ds := by
  induction ds with
  | nil => rfl
  | cons d ds ih =>
    have hd := (digitChar_facts d (h d (List.mem_cons_self _ _))).1
    simp only [List.map_cons, takeDigits, hd]
    rw [ih (fun x hx => h x (List.mem_cons_of_mem _ hx))]

theorem toDigitsCore_spec (fuel : Nat) : ∀ (n : Nat) (acc : List Char), n < fuel →
    ∃ ds : List Nat, Nat.toDigitsCore 10 fuel n acc = ds.map Nat.digitChar ++ acc ∧
      ds ≠ [] ∧ (∀ d ∈ ds, d < 10) ∧ mathInt 10 ds = n := by
  induction fuel with
  | zero => intro n acc h; omega
  | succ fuel ih =>
    intro n acc h
    unfold Nat.toDigitsCore
    by_cases h0 : n / 10 = 0
    · refine ⟨[n % 10], ?_, by simp, ?_, ?_⟩
      · simp [h0]
      · intro d hd; simp at hd; omega
      · simp [mathInt]; omega
    · obtain ⟨ds, hds, _, hlt, hval⟩ :=
        ih (n / 10) (Nat.digitChar (n % 10) :: acc) (by omega)
      refine ⟨ds ++ [n % 10], ?_, by simp, ?_, ?_⟩
      · simp [h0, hds]
      · intro d hd
        rcases List.mem_append.1 hd with hd | hd
        · exact hlt d hd
        · simp at hd; omega
      · unfold mathInt at hval ⊢
        rw [List.foldl_append, hval]
        simp; omega

theorem toDigits_spec (n : Nat) :
    ∃ ds : List Nat, Nat.toDigits 10 n = ds.map Nat.digitChar ∧
      ds ≠ [] ∧ (∀ d ∈ ds, d < 10) ∧ mathInt 10 ds = n := by
  obtain ⟨ds, h1, h2, h3, h4⟩ := toDigitsCore_spec (n + 1) n [] (by omega)
  exact ⟨ds, by simpa [Nat.toDigits] using h1, h2, h3, h4⟩

theorem readRadix_digits (negative : Bool) (ds : List Nat) (hne : ds ≠ [])
    (h : ∀ d ∈ ds, d < 10) :
    readRadix negative (ds.map Nat.digitChar) =
      match roundToDouble (mathInt 10 ds) with
      | none => JSNumber.infinite negative
      | some v => JSNumber.finite (if negative then -(v : Int) else (v : Int)) := by
  have hhex : ((ds.map Nat.digitChar).take 2 == ['0', 'x'] ||
      (ds.map Nat.digitChar).take 2 == ['0', 'X']) = false := by
    match ds, h with
    | [], _ => decide
    | [d], _ => simp
    | d :: d2 :: rest, h =>
      have h2 := digitChar_facts d2 (h d2 (by simp))
      simp [h2.2.2.2.2.1, h2.2.2.2.2.2]
  unfold readRadix
  rw [hhex]
  simp only [Bool.false_eq_true, if_false, readInteger, takeDigits_map_digitChar ds h]
  cases ds with
  | nil => exact absurd rfl hne
  | cons d rest => rfl

/-- Reading an unsigned decimal numeral. -/
theorem parseInt_digits (ds : List Nat) (hne : ds ≠ []) (h : ∀ d ∈ ds, d < 10) :
    parseInt (some (String.mk (ds.map Nat.digitChar))) =
      match roundToDouble (mathInt 10 ds) with
      | none => JSNumber.infinite false
      | some v => JSNumber.finite (v : Int) := by
  obtain ⟨d, rest, rfl⟩ := List.exists_cons_of_ne_nil hne
  have hd := digitChar_facts d (h d (by simp))
  have key := readRadix_digits false (d :: rest) hne h
  simp only [List.map_cons] at key
  simp only [parseInt, toStringJS, String.toList, List.map_cons]
  rw [List.dropWhile_cons_of_neg (by simp [hd.2.1])]
  have hminus : (Nat.digitChar d == '-') = false := by simp [hd.2.2.2.1]
  simpa [hd.2.2.1, hd.2.2.2.1, hminus] using key

/-- Reading a negative decimal numeral. -/
theorem parseInt_neg_digits (ds : List Nat) (hne : ds ≠ []) (h : ∀ d ∈ ds, d < 10) :
    parseInt (some (String.mk ('-' :: ds.map Nat.digitChar))) =
      match roundToDouble (mathInt 10 ds) with
      | none => JSNumber.infinite true
      | some v => JSNumber.finite (-(v : Int)) := by
  have key := readRadix_digits true ds hne h
  simp only [parseInt, toStringJS, String.toList]
  rw [List.dropWhile_cons_of_neg (by decide)]
  simpa using key

/-- `parseInt` reads the decimal numeral of an integer as the double nearest to it. -/
theorem parseInt_toString (n : Int) :
    parseInt (some (toString n)) =
      match roundToDouble n.natAbs with
      | none => JSNumber.infinite (decide (n < 0))
      | some v => JSNumber.finite (if n < 0 then -(v : Int) else (v : Int)) := by
  cases n with
  | ofNat m =>
    obtain ⟨ds, h1, h2, h3, h4⟩ := toDigits_spec m
    have : toString (Int.ofNat m) = String.mk (ds.map Nat.digitChar) := by
      show Nat.repr m = _
      simp [Nat.repr, h1, List.asString]
    rw [this, parseInt_digits ds h2 h3, h4]
    have hnn : ¬ ((m : Int) < 0) := by omega
    have hnat : (Int.ofNat m).natAbs = m := rfl
    rw [hnat]
    cases roundToDouble m <;> simp [hnn]
  | negSucc m =>
    obtain ⟨ds, h1, h2, h3, h4⟩ := toDigits_spec (m + 1)
    have : toString (Int.negSucc m) = String.mk ('-' :: ds.map Nat.digitChar) := by
      show "-" ++ Nat.repr (m + 1) = _
      simp [Nat.repr, h1, List.asString]
      rfl
    rw [this, parseInt_neg_digits ds h2 h3, h4]
    have hneg : Int.negSucc m < 0 := Int.negSucc_lt_zero m
    simp [hneg, Int.natAbs]

theorem parseInt_toString_safe (n : Int) (h : n.natAbs < 2 ^ 53) :
    parseInt (some (toString n)) = JSNumber.finite n := by
  rw [parseInt_toString]
  simp only [roundToDouble, h, if_true]
  by_cases hn : n < 0
  · simp only [hn, if_true]; congr 1; omega
  · simp only [hn, if_false]; congr 1; omega


/-! ## The field mapper -/

theorem listItemMapper_ok (item : AttributeMap) (vid vn vd vi vv vdist : AttributeValue)
    (h1 : item.lookup "id" = some vid) (h2 : item.lookup "name" = some vn)
    (h3 : item.lookup "description" = some vd) (h4 : item.lookup "image" = some vi)
    (h5 : item.lookup "velocity" = some vv) (h6 : item.lookup "distance" = some vdist) :
    listItemMapper item = .ok
      { id := parseInt vid.N, name := vn.S, description := vd.S, image := vi.S,
        velocity := vv.S, distance := vdist.S } := by
  simp [listItemMapper, h1, h2, h3, h4, h5, h6, getN, getS, bind, Except.bind, pure, Except.pure]

theorem listItemMapper_ok_inv (item : AttributeMap) (p : Planet)
    (h : listItemMapper item = .ok p) :
    ∃ vid vn vd vi vv vdist, item.lookup "id" = some vid ∧ item.lookup "name" = some vn ∧
      item.lookup "description" = some vd ∧ item.lookup "image" = some vi ∧
      item.lookup "velocity" = some vv ∧ item.lookup "distance" = some vdist ∧
      p = { id := parseInt vid.N, name := vn.S, description := vd.S, image := vi.S,
            velocity := vv.S, distance := vdist.S } := by
  unfold listItemMapper at h
  cases h1 : item.lookup "id" <;> cases h2 : item.lookup "name" <;>
    cases h3 : item.lookup "description" <;> cases h4 : item.lookup "image" <;>
    cases h5 : item.lookup "velocity" <;> cases h6 : item.lookup "distance" <;>
    simp [h1, h2, h3, h4, h5, h6, getN, getS, bind, Except.bind, pure, Except.pure] at h
  exact ⟨_, _, _, _, _, _, rfl, rfl, rfl, rfl, rfl, rfl, h.symm⟩

theorem listItemMapper_error_of_missing (item : AttributeMap) (h : carriesSix item = false) :
    ∃ e, listItemMapper item = .error e := by
  cases hm : listItemMapper item with
  | error e => exact ⟨e, rfl⟩
  | ok p =>
    obtain ⟨vid, vn, vd, vi, vv, vdist, h1, h2, h3, h4, h5, h6, _⟩ := listItemMapper_ok_inv item p hm
    simp [carriesSix, planetAttributes, h1, h2, h3, h4, h5, h6] at h

theorem listItemMapper_ok_of_carriesSix (item : AttributeMap) (h : carriesSix item = true) :
    ∃ p, listItemMapper item = .ok p := by
  simp only [carriesSix, planetAttributes, List.all_cons, List.all_nil, Bool.and_true,
    Bool.and_eq_true, Option.isSome_iff_exists] at h
  obtain ⟨⟨vid, h1⟩, ⟨vn, h2⟩, ⟨vd, h3⟩, ⟨vi, h4⟩, ⟨vv, h5⟩, ⟨vdist, h6⟩⟩ := h
  exact ⟨_, listItemMapper_ok item vid vn vd vi vv vdist h1 h2 h3 h4 h5 h6⟩

theorem mapItems_ok_iff (f : AttributeMap → Except JSError Planet) :
    ∀ (items : List AttributeMap) (ps : List Planet),
      mapItems f items = .ok ps ↔ List.Forall₂ (fun item p => f item = .ok p) items ps := by
  intro items
  induction items with
  | nil =>
    intro ps
    cases ps <;> simp [mapItems]
  | cons item rest ih =>
    intro ps
    unfold mapItems
    cases hf : f item with
    | error e =>
      simp only []
      constructor
      · intro h; cases h
      · intro h
        cases h with
        | cons h1 _ => rw [hf] at h1; cases h1
    | ok p =>
      simp only []
      cases hr : mapItems f rest with
      | error e =>
        simp only []
        constructor
        · intro h; cases h
        · intro h
          cases h with
          | cons h1 h2 => rw [(ih _).2 h2] at hr; cases hr
      | ok qs =>
        simp only []
        constructor
        · intro h
          cases h
          exact List.Forall₂.cons hf ((ih qs).1 hr)
        · intro h
          cases h with
          | cons h1 h2 =>
            rw [hf] at h1
            cases h1
            rw [(ih _).2 h2] at hr
            cases hr
            rfl

theorem mapItems_error_of_mem (f : AttributeMap → Except JSError Planet) :
    ∀ (items : List AttributeMap), (∃ item ∈ items, ∃ e, f item = .error e) →
      ∃ e, mapItems f items = .error e := by
  intro items
  induction items with
  | nil => rintro ⟨_, h, _⟩; cases h
  | cons item rest ih =>
    rintro ⟨x, hx, e, he⟩
    unfold mapItems
    cases hf : f item with
    | error e1 => exact ⟨e1, rfl⟩
    | ok p =>
      simp only []
      have hx1 : x ∈ rest := by
        rcases List.mem_cons.1 hx with h | h
        · subst h; rw [hf] at he; cases he
        · exact h
      obtain ⟨e2, h2⟩ := ih ⟨x, hx1, e, he⟩
      rw [h2]
      exact ⟨e2, rfl⟩

theorem mapItems_ok_of_all (f : AttributeMap → Except JSError Planet) :
    ∀ (items : List AttributeMap), (∀ item ∈ items, ∃ p, f item = .ok p) →
      ∃ ps, mapItems f items = .ok ps := by
  intro items h
  cases hm : mapItems f items with
  | ok ps => exact ⟨ps, rfl⟩
  | error e =>
    exfalso
    induction items with
    | nil => simp [mapItems] at hm
    | cons item rest ih =>
      obtain ⟨p, hp⟩ := h item (List.mem_cons_self _ _)
      unfold mapItems at hm
      rw [hp] at hm
      simp only [] at hm
      cases hr : mapItems f rest with
      | ok qs => rw [hr] at hm; cases hm
      | error e2 =>
        rw [hr] at hm
        cases hm
        exact ih (fun x hx => h x (List.mem_cons_of_mem _ hx)) hr


/-! ## JSON shape of a mapped planet -/

theorem hasPlanetShape_toJson (p : Planet) :
    hasPlanetShape p.toJson = true ↔
      (∃ n, p.id = JSNumber.finite n) ∧ (∃ s, p.name = some s) ∧ (∃ s, p.description = some s) ∧
      (∃ s, p.image = some s) ∧ (∃ s, p.velocity = some s) ∧ (∃ s, p.distance = some s) := by
  obtain ⟨id, n, d, i, v, di⟩ := p
  cases id <;> cases n <;> cases d <;> cases i <;> cases v <;> cases di <;>
    simp [Planet.toJson, hasPlanetShape, numberField, stringField, isNumber, isString,
      List.lookup]


/-! ## The handlers, case by case -/

theorem getPlanetById_of_error (dynamoDB : DynamoDBObject) (tableName id : String) (e : JSError)
    (h : (awaitGetItem dynamoDB (getItemParams tableName id)).outcome = .error e) :
    getPlanetById dynamoDB tableName id =
      ⟨(awaitGetItem dynamoDB (getItemParams tableName id)).calls,
       resJson 500 (errorBody "Failed to fetch planet" e.message)⟩ := by
  simp [getPlanetById, getPlanetByIdTry, tryCatch, bind, Run.bind, h, errorBody]

theorem getPlanetById_of_absent (dynamoDB : DynamoDBObject) (tableName id : String)
    (data : GetItemOutput)
    (h : (awaitGetItem dynamoDB (getItemParams tableName id)).outcome = .ok data)
    (hItem : data.Item = none) :
    getPlanetById dynamoDB tableName id =
      ⟨(awaitGetItem dynamoDB (getItemParams tableName id)).calls, resJson 404 notFoundBody⟩ := by
  simp [getPlanetById, getPlanetByIdTry, tryCatch, bind, Run.bind, h, hItem, notFoundBody,
    pure, Run.pure]

theorem getPlanetById_of_mapped (dynamoDB : DynamoDBObject) (tableName id : String)
    (data : GetItemOutput) (Item : AttributeMap) (p : Planet)
    (h : (awaitGetItem dynamoDB (getItemParams tableName id)).outcome = .ok data)
    (hItem : data.Item = some Item) (hp : planetOfItem Item = .ok p) :
    getPlanetById dynamoDB tableName id =
      ⟨(awaitGetItem dynamoDB (getItemParams tableName id)).calls, resJson 200 p.toJson⟩ := by
  simp [getPlanetById, getPlanetByIdTry, tryCatch, bind, Run.bind, h, hItem, hp, Run.lift,
    pure, Run.pure]

theorem getPlanetById_of_unmapped (dynamoDB : DynamoDBObject) (tableName id : String)
    (data : GetItemOutput) (Item : AttributeMap) (e : JSError)
    (h : (awaitGetItem dynamoDB (getItemParams tableName id)).outcome = .ok data)
    (hItem : data.Item = some Item) (hp : planetOfItem Item = .error e) :
    getPlanetById dynamoDB tableName id =
      ⟨(awaitGetItem dynamoDB (getItemParams tableName id)).calls,
       resJson 500 (errorBody "Failed to fetch planet" e.message)⟩ := by
  simp [getPlanetById, getPlanetByIdTry, tryCatch, bind, Run.bind, h, hItem, hp, Run.lift,
    errorBody]

theorem getPlanets_of_error (dynamoDB : DynamoDBObject) (tableName : String) (e : JSError)
    (h : (awaitScan dynamoDB ⟨tableName⟩).outcome = .error e) :
    getPlanets dynamoDB tableName =
      ⟨(awaitScan dynamoDB ⟨tableName⟩).calls,
       resJson 500 (errorBody "Failed to fetch planets" e.message)⟩ := by
  simp [getPlanets, getPlanetsTry, tryCatch, bind, Run.bind, h, errorBody]

theorem getPlanets_of_empty (dynamoDB : DynamoDBObject) (tableName : String) (data : ScanOutput)
    (h : (awaitScan dynamoDB ⟨tableName⟩).outcome = .ok data)
    (hItems : data.Items.getD [] = []) :
    getPlanets dynamoDB tableName =
      ⟨(awaitScan dynamoDB ⟨tableName⟩).calls, resJson 200 (Json.arr [])⟩ := by
  cases hI : data.Items with
  | none => simp [getPlanets, getPlanetsTry, tryCatch, bind, Run.bind, h, hI, pure, Run.pure]
  | some items =>
    rw [hI] at hItems
    simp only [Option.getD_some] at hItems
    subst hItems
    simp [getPlanets, getPlanetsTry, tryCatch, bind, Run.bind, h, hI, pure, Run.pure]

theorem getPlanets_of_mapped (dynamoDB : DynamoDBObject) (tableName : String) (data : ScanOutput)
    (ps : List Planet)
    (h : (awaitScan dynamoDB ⟨tableName⟩).outcome = .ok data)
    (hp : mapItems listItemMapper (data.Items.getD []) = .ok ps) :
    getPlanets dynamoDB tableName =
      ⟨(awaitScan dynamoDB ⟨tableName⟩).calls,
       resJson 200 (Json.arr (ps.map Planet.toJson))⟩ := by
  by_cases hemp : data.Items.getD [] = []
  · rw [hemp] at hp
    simp only [mapItems, Except.ok.injEq] at hp
    subst hp
    exact getPlanets_of_empty dynamoDB tableName data h hemp
  · cases hI : data.Items with
    | none => simp [hI] at hemp
    | some items =>
      simp only [hI, Option.getD_some] at hemp hp
      have hlen : ¬ items.length = 0 := by
        intro h0; exact hemp (List.length_eq_zero.1 h0)
      simp [getPlanets, getPlanetsTry, tryCatch, bind, Run.bind, h, hI, hp, hlen, Run.lift,
        pure, Run.pure]

theorem getPlanets_of_unmapped (dynamoDB : DynamoDBObject) (tableName : String)
    (data : ScanOutput) (e : JSError)
    (h : (awaitScan dynamoDB ⟨tableName⟩).outcome = .ok data)
    (hp : mapItems listItemMapper (data.Items.getD []) = .error e) :
    getPlanets dynamoDB tableName =
      ⟨(awaitScan dynamoDB ⟨tableName⟩).calls,
       resJson 500 (errorBody "Failed to fetch planets" e.message)⟩ := by
  cases hI : data.Items with
  | none => simp [hI, mapItems] at hp
  | some items =>
    simp only [hI, Option.getD_some] at hp
    have hlen : ¬ items.length = 0 := by
      intro h0
      rw [List.length_eq_zero.1 h0] at hp
      simp [mapItems] at hp
    simp [getPlanets, getPlanetsTry, tryCatch, bind, Run.bind, h, hI, hp, hlen, Run.lift,
      errorBody]

theorem awaitGetItem_of_method (dynamoDB : DynamoDBObject) (params : GetItemInput)
    (getItem : GetItemInput → Except JSError GetItemOutput) (h : dynamoDB.getItem = some getItem) :
    awaitGetItem dynamoDB params = ⟨[StoreCall.getItem params], getItem params⟩ := by
  simp [awaitGetItem, h]

theorem awaitScan_of_method (dynamoDB : DynamoDBObject) (params : ScanInput)
    (scan : ScanInput → Except JSError ScanOutput) (h : dynamoDB.scan = some scan) :
    awaitScan dynamoDB params = ⟨[StoreCall.scan params], scan params⟩ := by
  simp [awaitScan, h]


/-! ## Properties of `GET /api/planets/:id` -/

/-- Claim C1, as amended: when the point lookup for the decimal numeral of an
integer `n` of the exactly representable range returns a record whose `id` is
number-tagged with that numeral and whose five other attributes are
string-tagged, the handler answers 200 with exactly the Planet object made of
`n` and the record's five strings. -/
theorem getPlanetById_found (dynamoDB : DynamoDBObject) (tableName : String) (n : Int)
    (Item : AttributeMap) (a b c d e : String)
    (hsafe : n.natAbs < 2 ^ 53)
    (hlookup : (awaitGetItem dynamoDB (getItemParams tableName (toString n))).outcome =
      .ok ⟨some Item⟩)
    (hrec : isPlanetRecord Item (toString n) a b c d e) :
    (getPlanetById dynamoDB tableName (toString n)).response =
      resJson 200 (planetJson n a b c d e) := by
  obtain ⟨⟨vid, h1, hN⟩, ⟨vn, h2, hn⟩, ⟨vd, h3, hd⟩, ⟨vi, h4, hi⟩, ⟨vv, h5, hv⟩,
    ⟨vdist, h6, hdist⟩⟩ := hrec
  have hp := listItemMapper_ok Item vid vn vd vi vv vdist h1 h2 h3 h4 h5 h6
  rw [hN, hn, hd, hi, hv, hdist, parseInt_toString_safe n hsafe] at hp
  rw [getPlanetById_of_mapped dynamoDB tableName (toString n) ⟨some Item⟩ Item _ hlookup rfl hp]
  rfl

/-- The seeded store of the tests, asked for planet 1, answers with exactly the
Mercury object. -/
theorem getPlanetById_found_witness :
    (1 : Int).natAbs < 2 ^ 53 ∧
    (awaitGetItem (clientOf documentClientStub) (getItemParams testTableName "1")).outcome =
      .ok ⟨planets.head?⟩ ∧
    (getPlanetById (clientOf documentClientStub) testTableName "1").response =
      resJson 200 (planetJson 1 "Mercury" "Mercury is the smallest planet in our solar system."
        "https://example.com/mercury.jpg" "47.87 km/s" "57.91 million km") :=
  ⟨by decide, rfl,
   getPlanetById_found (clientOf documentClientStub) testTableName 1 _ _ _ _ _ _ (by decide) rfl
     ⟨⟨_, rfl, rfl⟩, ⟨_, rfl, rfl⟩, ⟨_, rfl, rfl⟩, ⟨_, rfl, rfl⟩, ⟨_, rfl, rfl⟩, ⟨_, rfl, rfl⟩⟩⟩


theorem roundToDouble_far : roundToDouble 9007199254740993 = some 9007199254740992 := by
  have h1 : 53 ≤ Nat.log2 9007199254740993 := (Nat.le_log2 (by norm_num)).2 (by norm_num)
  have h2 : Nat.log2 9007199254740993 < 54 := (Nat.log2_lt (by norm_num)).2 (by norm_num)
  have hlog : Nat.log2 9007199254740993 = 53 := by omega
  unfold roundToDouble
  rw [hlog]
  norm_num

theorem parseInt_far : parseInt (some "9007199254740993") = JSNumber.finite 9007199254740992 := by
  have h : toString (9007199254740993 : Int) = "9007199254740993" := by decide
  have key := parseInt_toString 9007199254740993
  rw [h] at key
  rw [key]
  have habs : (9007199254740993 : Int).natAbs = 9007199254740993 := by decide
  rw [habs, roundToDouble_far]
  rfl

/-- Claim C1 fails beyond the exactly representable integers: the store holds a
record with `id` 9007199254740993 and five string-tagged attributes, the
request asks for that id, and the body carries `id` 9007199254740992. -/
theorem getPlanetById_far_id_rounded :
    isPlanetRecord farRecord "9007199254740993" "Far" "A far planet."
      "https://example.com/far.jpg" "1.00 km/s" "9000 million km" ∧
    (awaitGetItem (clientOf farStore) (getItemParams testTableName "9007199254740993")).outcome =
      .ok ⟨some farRecord⟩ ∧
    (getPlanetById (clientOf farStore) testTableName "9007199254740993").response =
      resJson 200 (planetJson 9007199254740992 "Far" "A far planet."
        "https://example.com/far.jpg" "1.00 km/s" "9000 million km") ∧
    (getPlanetById (clientOf farStore) testTableName "9007199254740993").response ≠
      resJson 200 (planetJson 9007199254740993 "Far" "A far planet."
        "https://example.com/far.jpg" "1.00 km/s" "9000 million km") := by
  have hrec : isPlanetRecord farRecord "9007199254740993" "Far" "A far planet."
      "https://example.com/far.jpg" "1.00 km/s" "9000 million km" :=
    ⟨⟨_, rfl, rfl⟩, ⟨_, rfl, rfl⟩, ⟨_, rfl, rfl⟩, ⟨_, rfl, rfl⟩, ⟨_, rfl, rfl⟩, ⟨_, rfl, rfl⟩⟩
  have hp : planetOfItem farRecord = .ok
      { id := JSNumber.finite 9007199254740992, name := some "Far",
        description := some "A far planet.", image := some "https://example.com/far.jpg",
        velocity := some "1.00 km/s", distance := some "9000 million km" } := by
    have h := listItemMapper_ok farRecord (attrN "9007199254740993") (attrS "Far")
      (attrS "A far planet.") (attrS "https://example.com/far.jpg") (attrS "1.00 km/s")
      (attrS "9000 million km") rfl rfl rfl rfl rfl rfl
    simp only [attrN, attrS] at h
    rw [parseInt_far] at h
    exact h
  have hresp := getPlanetById_of_mapped (clientOf farStore) testTableName "9007199254740993"
    ⟨some farRecord⟩ farRecord _ rfl rfl hp
  refine ⟨hrec, rfl, ?_, ?_⟩
  · rw [hresp]; rfl
  · rw [hresp]
    simp [resJson, Planet.toJson, planetJson, numberField, stringField]


/-- Claim C2: the handler answers 404 with body `{error: "Planet not found"}`
exactly when the point lookup completes without throwing and returns no Item;
that answer is never the 500 error answer and its body has the single field
`error`, without `details`. -/
theorem getPlanetById_not_found_iff (dynamoDB : DynamoDBObject) (tableName id : String) :
    ((getPlanetById dynamoDB tableName id).response =
        ⟨404, Body.json (Json.obj [("error", Json.str "Planet not found")])⟩ ↔
      ∃ data, (awaitGetItem dynamoDB (getItemParams tableName id)).outcome = .ok data ∧
        data.Item = none) ∧
    ((getPlanetById dynamoDB tableName id).response.status = 404 ↔
      ∃ data, (awaitGetItem dynamoDB (getItemParams tableName id)).outcome = .ok data ∧
        data.Item = none) ∧
    ((getPlanetById dynamoDB tableName id).response.status = 500 ↔
      ¬ ∃ data, (awaitGetItem dynamoDB (getItemParams tableName id)).outcome = .ok data ∧
        (data.Item = none ∨ ∃ Item p, data.Item = some Item ∧ planetOfItem Item = .ok p)) := by
  have hback : (∃ data, (awaitGetItem dynamoDB (getItemParams tableName id)).outcome = .ok data ∧
      data.Item = none) →
      (getPlanetById dynamoDB tableName id).response = resJson 404 notFoundBody := by
    rintro ⟨data, h, hItem⟩
    rw [getPlanetById_of_absent dynamoDB tableName id data h hItem]
  have hforth : (getPlanetById dynamoDB tableName id).response.status = 404 →
      ∃ data, (awaitGetItem dynamoDB (getItemParams tableName id)).outcome = .ok data ∧
        data.Item = none := by
    intro hst
    cases h : (awaitGetItem dynamoDB (getItemParams tableName id)).outcome with
    | error e =>
      rw [getPlanetById_of_error dynamoDB tableName id e h] at hst
      simp [resJson] at hst
    | ok data =>
      cases hItem : data.Item with
      | none => exact ⟨data, rfl, hItem⟩
      | some Item =>
        cases hp : planetOfItem Item with
        | error e =>
          rw [getPlanetById_of_unmapped dynamoDB tableName id data Item e h hItem hp] at hst
          simp [resJson] at hst
        | ok p =>
          rw [getPlanetById_of_mapped dynamoDB tableName id data Item p h hItem hp] at hst
          simp [resJson] at hst
  refine ⟨⟨fun h => hforth (by rw [h]), hback⟩, ⟨hforth, fun h => by rw [hback h]; rfl⟩, ?_⟩
  cases h : (awaitGetItem dynamoDB (getItemParams tableName id)).outcome with
  | error e =>
    rw [getPlanetById_of_error dynamoDB tableName id e h]
    simp [resJson]
  | ok data =>
    cases hItem : data.Item with
    | none =>
      rw [getPlanetById_of_absent dynamoDB tableName id data h hItem]
      simp [resJson, hItem]
    | some Item =>
      cases hp : planetOfItem Item with
      | error e =>
        rw [getPlanetById_of_unmapped dynamoDB tableName id data Item e h hItem hp]
        simp [resJson, hItem, hp]
      | ok p =>
        rw [getPlanetById_of_mapped dynamoDB tableName id data Item p h hItem hp]
        simp [resJson, hItem, hp]

/-- The seeded store of the tests, asked for planet 999, answers 404. -/
theorem getPlanetById_not_found_witness :
    (getPlanetById (clientOf documentClientStub) testTableName "999").response =
      resJson 404 notFoundBody :=
  (getPlanetById_not_found_iff (clientOf documentClientStub) testTableName "999").1.2
    ⟨⟨none⟩, rfl, rfl⟩

/-! ## Properties of `GET /api/planets` -/

/-- Claim C3: when the scan succeeds and every record of `Items` carries the six
attributes, the handler answers 200 with the array of the mapped records, in
the order of `Items` and of the same length; the array has at least one
element when `Items` is non-empty and is `[]` when `Items` is empty or
missing. -/
theorem getPlanets_lists_all (dynamoDB : DynamoDBObject) (tableName : String)
    (scan : ScanInput → Except JSError ScanOutput) (data : ScanOutput)
    (hmethod : dynamoDB.scan = some scan) (hscan : scan ⟨tableName⟩ = .ok data)
    (hsix : ∀ item ∈ data.Items.getD [], carriesSix item = true) :
    ∃ mapped : List Planet,
      List.Forall₂ (fun item p => listItemMapper item = .ok p) (data.Items.getD []) mapped ∧
      (getPlanets dynamoDB tableName).response =
        resJson 200 (Json.arr (mapped.map Planet.toJson)) ∧
      (mapped.map Planet.toJson).length = (data.Items.getD []).length ∧
      (data.Items.getD [] ≠ [] → 1 ≤ (mapped.map Planet.toJson).length) ∧
      (data.Items.getD [] = [] →
        (getPlanets dynamoDB tableName).response = resJson 200 (Json.arr [])) := by
  have hout : (awaitScan dynamoDB ⟨tableName⟩).outcome = .ok data := by
    rw [awaitScan_of_method dynamoDB _ scan hmethod]; exact hscan
  obtain ⟨mapped, hmapped⟩ := mapItems_ok_of_all listItemMapper (data.Items.getD [])
    (fun item hitem => listItemMapper_ok_of_carriesSix item (hsix item hitem))
  have hall := (mapItems_ok_iff listItemMapper _ _).1 hmapped
  have hlen : (mapped.map Planet.toJson).length = (data.Items.getD []).length := by
    rw [List.length_map]; exact hall.length_eq.symm
  refine ⟨mapped, hall, ?_, hlen, ?_, ?_⟩
  · rw [getPlanets_of_mapped dynamoDB tableName data mapped hout hmapped]
  · intro hne
    rw [hlen]
    exact List.length_pos.2 hne
  · intro hemp
    rw [getPlanets_of_empty dynamoDB tableName data hout hemp]

/-- The seeded store of the tests lists Mercury and Venus, in that order. -/
theorem getPlanets_lists_all_witness :
    (∀ item ∈ planets, carriesSix item = true) ∧
    ∃ mapped : List Planet,
      List.Forall₂ (fun item p => listItemMapper item = .ok p) planets mapped ∧
      (getPlanets (clientOf documentClientStub) testTableName).response =
        resJson 200 (Json.arr (mapped.map Planet.toJson)) ∧
      (mapped.map Planet.toJson).length = planets.length ∧
      (planets ≠ [] → 1 ≤ (mapped.map Planet.toJson).length) ∧
      (planets = [] →
        (getPlanets (clientOf documentClientStub) testTableName).response =
          resJson 200 (Json.arr [])) :=
  ⟨by decide,
   getPlanets_lists_all (clientOf documentClientStub) testTableName documentClientStub.scan
     ⟨some planets⟩ rfl rfl (by decide)⟩

/-! ## Store failures -/

/-- Claim C4: in both API handlers, a store call that throws an exception with
message `m` is issued exactly once and answered with status 500 and the body
`{error, details}` whose `details` is `m` unchanged. -/
theorem store_error_gives_500 (dynamoDB : DynamoDBObject) (tableName id m : String) :
    (∀ scan, dynamoDB.scan = some scan → scan ⟨tableName⟩ = .error ⟨m⟩ →
      getPlanets dynamoDB tableName =
        ⟨[StoreCall.scan ⟨tableName⟩],
         ⟨500, Body.json (Json.obj [("error", Json.str "Failed to fetch planets"),
                                    ("details", Json.str m)])⟩⟩) ∧
    (∀ getItem, dynamoDB.getItem = some getItem →
      getItem (getItemParams tableName id) = .error ⟨m⟩ →
      getPlanetById dynamoDB tableName id =
        ⟨[StoreCall.getItem (getItemParams tableName id)],
         ⟨500, Body.json (Json.obj [("error", Json.str "Failed to fetch planet"),
                                    ("details", Json.str m)])⟩⟩) := by
  constructor
  · intro scan hmethod hthrow
    have hrun := awaitScan_of_method dynamoDB ⟨tableName⟩ scan hmethod
    rw [getPlanets_of_error dynamoDB tableName ⟨m⟩ (by rw [hrun]; exact hthrow), hrun]
    rfl
  · intro getItem hmethod hthrow
    have hrun := awaitGetItem_of_method dynamoDB (getItemParams tableName id) getItem hmethod
    rw [getPlanetById_of_error dynamoDB tableName id ⟨m⟩ (by rw [hrun]; exact hthrow), hrun]
    rfl

/-- A store whose calls throw with message `Requested resource not found`: both
handlers answer 500 with that message after one call. -/
theorem store_error_gives_500_witness :
    getPlanets (clientOf (failingStore "Requested resource not found")) testTableName =
      ⟨[StoreCall.scan ⟨testTableName⟩],
       ⟨500, Body.json (Json.obj [("error", Json.str "Failed to fetch planets"),
                                  ("details", Json.str "Requested resource not found")])⟩⟩ ∧
    getPlanetById (clientOf (failingStore "Requested resource not found")) testTableName "1" =
      ⟨[StoreCall.getItem (getItemParams testTableName "1")],
       ⟨500, Body.json (Json.obj [("error", Json.str "Failed to fetch planet"),
                                  ("details", Json.str "Requested resource not found")])⟩⟩ :=
  ⟨(store_error_gives_500 (clientOf (failingStore "Requested resource not found"))
      testTableName "1" "Requested resource not found").1 _ rfl rfl,
   (store_error_gives_500 (clientOf (failingStore "Requested resource not found"))
      testTableName "1" "Requested resource not found").2 _ rfl rfl⟩


/-! ## The field mapper strips the type tags -/

/-- Claim C5: for an integer `n` of the exactly representable range and strings
`a` to `e`, the mapper turns the record `{id: {N: numeral of n}, name: {S: a},
description: {S: b}, image: {S: c}, velocity: {S: d}, distance: {S: e}}` into
the Planet `{id: n, name: a, description: b, image: c, velocity: d,
distance: e}`, the strings unchanged; the list handler and the get-by-id
handler map records by the same function. -/
theorem mapper_strips_tags (n : Int) (a b c d e : String) (hsafe : n.natAbs < 2 ^ 53) :
    listItemMapper (planetRecord (toString n) a b c d e) = .ok
      { id := JSNumber.finite n, name := some a, description := some b, image := some c,
        velocity := some d, distance := some e } ∧
    (∀ p, listItemMapper (planetRecord (toString n) a b c d e) = .ok p →
      p.toJson = Json.obj [("id", Json.num n), ("name", Json.str a),
        ("description", Json.str b), ("image", Json.str c), ("velocity", Json.str d),
        ("distance", Json.str e)]) ∧
    (∀ item, planetOfItem item = listItemMapper item) := by
  have hp := listItemMapper_ok (planetRecord (toString n) a b c d e) (attrN (toString n))
    (attrS a) (attrS b) (attrS c) (attrS d) (attrS e) rfl rfl rfl rfl rfl rfl
  simp only [attrN, attrS] at hp
  rw [parseInt_toString_safe n hsafe] at hp
  refine ⟨hp, ?_, fun _ => rfl⟩
  intro p hpp
  rw [hp] at hpp
  cases hpp
  rfl

/-- The Mercury record of the tests is mapped to the Mercury object, its
velocity and distance textually intact. -/
theorem mapper_strips_tags_witness :
    (1 : Int).natAbs < 2 ^ 53 ∧
    listItemMapper (planetRecord "1" "Mercury"
      "Mercury is the smallest planet in our solar system." "https://example.com/mercury.jpg"
      "47.87 km/s" "57.91 million km") = .ok
      { id := JSNumber.finite 1, name := some "Mercury",
        description := some "Mercury is the smallest planet in our solar system.",
        image := some "https://example.com/mercury.jpg",
        velocity := some "47.87 km/s", distance := some "57.91 million km" } :=
  ⟨by decide,
   (mapper_strips_tags 1 "Mercury" "Mercury is the smallest planet in our solar system."
      "https://example.com/mercury.jpg" "47.87 km/s" "57.91 million km" (by decide)).1⟩

/-! ## The Planet JSON shape -/

theorem parseInt_undefined : parseInt none = JSNumber.nan := by decide

theorem wellTagged_iff (item : AttributeMap) (vid vn vd vi vv vdist : AttributeValue)
    (h1 : item.lookup "id" = some vid) (h2 : item.lookup "name" = some vn)
    (h3 : item.lookup "description" = some vd) (h4 : item.lookup "image" = some vi)
    (h5 : item.lookup "velocity" = some vv) (h6 : item.lookup "distance" = some vdist) :
    wellTagged item ↔
      (∃ n, parseInt vid.N = JSNumber.finite n) ∧ (∃ s, vn.S = some s) ∧ (∃ s, vd.S = some s) ∧
      (∃ s, vi.S = some s) ∧ (∃ s, vv.S = some s) ∧ (∃ s, vdist.S = some s) := by
  have hid : (∃ v idN n, item.lookup "id" = some v ∧ v.N = some idN ∧
        parseInt (some idN) = JSNumber.finite n) ↔ ∃ n, parseInt vid.N = JSNumber.finite n := by
    constructor
    · rintro ⟨v, idN, n, hv, hN, hn⟩
      rw [h1] at hv
      cases hv
      exact ⟨n, by rw [hN]; exact hn⟩
    · rintro ⟨n, hn⟩
      cases hN : vid.N with
      | none => rw [hN, parseInt_undefined] at hn; cases hn
      | some idN => exact ⟨vid, idN, n, h1, hN, by rw [← hN]; exact hn⟩
  have hstr : ∀ (key : String) (v : AttributeValue), item.lookup key = some v →
      ((∃ s, hasS item key s) ↔ ∃ s, v.S = some s) := by
    intro key v hv
    constructor
    · rintro ⟨s, w, hw, hs⟩
      rw [hv] at hw
      cases hw
      exact ⟨s, hs⟩
    · rintro ⟨s, hs⟩
      exact ⟨s, v, hv, hs⟩
  unfold wellTagged
  rw [hid, hstr _ _ h2, hstr _ _ h3, hstr _ _ h4, hstr _ _ h5, hstr _ _ h6]

theorem shape_iff_wellTagged (item : AttributeMap) (p : Planet)
    (h : listItemMapper item = .ok p) :
    hasPlanetShape p.toJson = true ↔ wellTagged item := by
  obtain ⟨vid, vn, vd, vi, vv, vdist, h1, h2, h3, h4, h5, h6, rfl⟩ :=
    listItemMapper_ok_inv item p h
  rw [hasPlanetShape_toJson, wellTagged_iff item vid vn vd vi vv vdist h1 h2 h3 h4 h5 h6]

/-- Claim C6, as amended: in a 200 response, the body of the get-by-id handler,
and each element of the body of the list handler, has the Planet JSON shape
exactly when the record it comes from has an `id` whose `N` string `parseInt`
reads as a finite integer and five string-tagged other attributes. -/
theorem planet_shape_iff_wellTagged (dynamoDB : DynamoDBObject) (tableName id : String) :
    (∀ data Item, (awaitGetItem dynamoDB (getItemParams tableName id)).outcome = .ok data →
      data.Item = some Item →
      (getPlanetById dynamoDB tableName id).response.status = 200 →
      ∃ j, (getPlanetById dynamoDB tableName id).response.body = Body.json j ∧
        (hasPlanetShape j = true ↔ wellTagged Item)) ∧
    (∀ data, (awaitScan dynamoDB ⟨tableName⟩).outcome = .ok data →
      (getPlanets dynamoDB tableName).response.status = 200 →
      ∃ js, (getPlanets dynamoDB tableName).response.body = Body.json (Json.arr js) ∧
        List.Forall₂ (fun item j => hasPlanetShape j = true ↔ wellTagged item)
          (data.Items.getD []) js) := by
  constructor
  · intro data Item hout hItem hst
    cases hp : planetOfItem Item with
    | error e =>
      rw [getPlanetById_of_unmapped dynamoDB tableName id data Item e hout hItem hp] at hst
      simp [resJson] at hst
    | ok p =>
      refine ⟨p.toJson, ?_, shape_iff_wellTagged Item p hp⟩
      rw [getPlanetById_of_mapped dynamoDB tableName id data Item p hout hItem hp]
      rfl
  · intro data hout hst
    cases hp : mapItems listItemMapper (data.Items.getD []) with
    | error e =>
      rw [getPlanets_of_unmapped dynamoDB tableName data e hout hp] at hst
      simp [resJson] at hst
    | ok ps =>
      refine ⟨ps.map Planet.toJson, ?_, ?_⟩
      · rw [getPlanets_of_mapped dynamoDB tableName data ps hout hp]
        rfl
      · have hall := (mapItems_ok_iff listItemMapper _ _).1 hp
        rw [List.forall₂_map_right_iff]
        exact hall.imp fun item p h => shape_iff_wellTagged item p h


/-- The seeded store of the tests: the body for planet 1 and both elements of
the list have the Planet JSON shape. -/
theorem planet_shape_iff_wellTagged_witness :
    (∃ j, (getPlanetById (clientOf documentClientStub) testTableName "1").response.body =
        Body.json j ∧ (hasPlanetShape j = true ↔ wellTagged (planets.headD []))) ∧
    (∃ js, (getPlanets (clientOf documentClientStub) testTableName).response.body =
        Body.json (Json.arr js) ∧
      List.Forall₂ (fun item j => hasPlanetShape j = true ↔ wellTagged item) planets js) :=
  ⟨(planet_shape_iff_wellTagged (clientOf documentClientStub) testTableName "1").1
      ⟨planets.head?⟩ (planets.headD []) rfl rfl rfl,
   (planet_shape_iff_wellTagged (clientOf documentClientStub) testTableName "1").2
      ⟨some planets⟩ rfl rfl⟩

/-- Claim C6 fails for a record the store may hold: with a number-tagged `name`
attribute both handlers answer 200 and the planet object has no `name` field. -/
theorem odd_record_breaks_shape :
    (getPlanetById (clientOf oddStore) testTableName "1").response =
      resJson 200 (Json.obj [("id", Json.num 1), ("description", Json.str "Mercury"),
        ("image", Json.str "https://example.com/mercury.jpg"),
        ("velocity", Json.str "47.87 km/s"), ("distance", Json.str "57.91 million km")]) ∧
    hasPlanetShape (Json.obj [("id", Json.num 1), ("description", Json.str "Mercury"),
        ("image", Json.str "https://example.com/mercury.jpg"),
        ("velocity", Json.str "47.87 km/s"), ("distance", Json.str "57.91 million km")]) = false ∧
    (getPlanets (clientOf oddStore) testTableName).response =
      resJson 200 (Json.arr [Json.obj [("id", Json.num 1), ("description", Json.str "Mercury"),
        ("image", Json.str "https://example.com/mercury.jpg"),
        ("velocity", Json.str "47.87 km/s"), ("distance", Json.str "57.91 million km")]]) :=
  ⟨rfl, rfl, rfl⟩

/-! ## No partial results -/

/-- Claim C7: the list handler answers either 200 with an array holding the
mapped planet of every record of `Items`, of the same length as `Items`, or 500
with an error body and no planets; when a record lacks one of the six
attributes the answer is the 500. -/
theorem getPlanets_all_or_error (dynamoDB : DynamoDBObject) (tableName : String) :
    ((∃ data mapped, (awaitScan dynamoDB ⟨tableName⟩).outcome = .ok data ∧
        List.Forall₂ (fun item p => listItemMapper item = .ok p) (data.Items.getD []) mapped ∧
        (getPlanets dynamoDB tableName).response =
          resJson 200 (Json.arr (mapped.map Planet.toJson)) ∧
        (mapped.map Planet.toJson).length = (data.Items.getD []).length) ∨
      (∃ m, (getPlanets dynamoDB tableName).response =
        resJson 500 (Json.obj [("error", Json.str "Failed to fetch planets"),
                               ("details", Json.str m)]))) ∧
    (∀ data, (awaitScan dynamoDB ⟨tableName⟩).outcome = .ok data →
      (∃ item ∈ data.Items.getD [], carriesSix item = false) →
      ∃ m, (getPlanets dynamoDB tableName).response =
        resJson 500 (Json.obj [("error", Json.str "Failed to fetch planets"),
                               ("details", Json.str m)])) := by
  constructor
  · cases hout : (awaitScan dynamoDB ⟨tableName⟩).outcome with
    | error e =>
      right
      exact ⟨e.message, by rw [getPlanets_of_error dynamoDB tableName e hout]; rfl⟩
    | ok data =>
      cases hp : mapItems listItemMapper (data.Items.getD []) with
      | error e =>
        right
        exact ⟨e.message, by rw [getPlanets_of_unmapped dynamoDB tableName data e hout hp]; rfl⟩
      | ok ps =>
        left
        have hall := (mapItems_ok_iff listItemMapper _ _).1 hp
        refine ⟨data, ps, rfl, hall, ?_, ?_⟩
        · rw [getPlanets_of_mapped dynamoDB tableName data ps hout hp]
        · rw [List.length_map]; exact hall.length_eq.symm
  · rintro data hout ⟨item, hmem, hmissing⟩
    obtain ⟨e, he⟩ := mapItems_error_of_mem listItemMapper (data.Items.getD [])
      ⟨item, hmem, listItemMapper_error_of_missing item hmissing⟩
    exact ⟨e.message, by rw [getPlanets_of_unmapped dynamoDB tableName data e hout he]; rfl⟩

/-- A scan returning Mercury, Venus and a record without `image`: the answer is
a 500, not the two planets mapped before the failure. -/
theorem getPlanets_all_or_error_witness :
    (∃ item ∈ planets ++ [partialRecord], carriesSix item = false) ∧
    ∃ m, (getPlanets (clientOf partialStore) testTableName).response =
      resJson 500 (Json.obj [("error", Json.str "Failed to fetch planets"),
                             ("details", Json.str m)]) :=
  ⟨⟨partialRecord, by decide, by decide⟩,
   (getPlanets_all_or_error (clientOf partialStore) testTableName).2
     ⟨some (planets ++ [partialRecord])⟩ rfl ⟨partialRecord, by decide, by decide⟩⟩

/-! ## The `:id` segment is passed through -/

/-- Claim C8: for every string `s` given as `:id`, the handler issues exactly
one point lookup, with key `{id: {N: s}}` and `s` unchanged; it answers 404
when the lookup returns no Item, 500 when the store throws, and never anything
but 200, 404 or 500. -/
theorem getPlanetById_any_id (dynamoDB : DynamoDBObject) (tableName s : String)
    (getItem : GetItemInput → Except JSError GetItemOutput)
    (hmethod : dynamoDB.getItem = some getItem) :
    (getPlanetById dynamoDB tableName s).calls =
      [StoreCall.getItem
        { TableName := tableName, Key := [("id", { S := none, N := some s })] }] ∧
    (∀ data, getItem (getItemParams tableName s) = .ok data → data.Item = none →
      (getPlanetById dynamoDB tableName s).response.status = 404) ∧
    (∀ e, getItem (getItemParams tableName s) = .error e →
      (getPlanetById dynamoDB tableName s).response.status = 500) ∧
    ((getPlanetById dynamoDB tableName s).response.status = 200 ∨
      (getPlanetById dynamoDB tableName s).response.status = 404 ∨
      (getPlanetById dynamoDB tableName s).response.status = 500) := by
  have hrun := awaitGetItem_of_method dynamoDB (getItemParams tableName s) getItem hmethod
  have hcalls : (awaitGetItem dynamoDB (getItemParams tableName s)).calls =
      [StoreCall.getItem (getItemParams tableName s)] := by rw [hrun]
  have hout : (awaitGetItem dynamoDB (getItemParams tableName s)).outcome =
      getItem (getItemParams tableName s) := by rw [hrun]
  cases hres : getItem (getItemParams tableName s) with
  | error e =>
    rw [hres] at hout
    rw [getPlanetById_of_error dynamoDB tableName s e hout, hcalls]
    exact ⟨rfl, fun _ h => (by cases h), fun _ _ => rfl, Or.inr (Or.inr rfl)⟩
  | ok data =>
    rw [hres] at hout
    cases hItem : data.Item with
    | none =>
      rw [getPlanetById_of_absent dynamoDB tableName s data hout hItem, hcalls]
      exact ⟨rfl, fun _ _ _ => rfl, fun _ h => (by cases h), Or.inr (Or.inl rfl)⟩
    | some Item =>
      cases hp : planetOfItem Item with
      | error e =>
        rw [getPlanetById_of_unmapped dynamoDB tableName s data Item e hout hItem hp, hcalls]
        refine ⟨rfl, ?_, fun _ h => (by cases h), Or.inr (Or.inr rfl)⟩
        intro d hd hnone
        cases hd
        rw [hItem] at hnone
        cases hnone
      | ok p =>
        rw [getPlanetById_of_mapped dynamoDB tableName s data Item p hout hItem hp, hcalls]
        refine ⟨rfl, ?_, fun _ h => (by cases h), Or.inl rfl⟩
        intro d hd hnone
        cases hd
        rw [hItem] at hnone
        cases hnone

/-- The seeded store of the tests, asked for the id `abc`: one lookup with the
key `abc`, answered 404. -/
theorem getPlanetById_any_id_witness :
    (getPlanetById (clientOf documentClientStub) testTableName "abc").calls =
      [StoreCall.getItem
        { TableName := testTableName, Key := [("id", { S := none, N := some "abc" })] }] ∧
    (getPlanetById (clientOf documentClientStub) testTableName "abc").response.status = 404 :=
  ⟨(getPlanetById_any_id (clientOf documentClientStub) testTableName "abc"
      documentClientStub.getItem rfl).1,
   (getPlanetById_any_id (clientOf documentClientStub) testTableName "abc"
      documentClientStub.getItem rfl).2.1 ⟨none⟩ rfl rfl⟩

/-! ## The home page -/

/-- Claim C9: the home handler answers 200 with the static page, issues no
store operation, and answers the same for any two stores, a store whose every
call throws included. -/
theorem getHome_ignores_store (indexHtml : String) (dynamoDB other : DynamoDBObject)
    (m : String) :
    (getHome indexHtml dynamoDB).response = ⟨200, Body.file indexHtml⟩ ∧
    (getHome indexHtml dynamoDB).calls = [] ∧
    getHome indexHtml dynamoDB = getHome indexHtml other ∧
    getHome indexHtml dynamoDB = getHome indexHtml (clientOf (failingStore m)) :=
  ⟨rfl, rfl, rfl, rfl⟩

/-! ## The test stub -/

/-- Claim C10 does not hold of the code: the object `app.js` obtains from the
stubbed `AWS.DynamoDB` has no `scan` and no `getItem` of its own, so both API
handlers answer 500 without reaching the stub's data, whereas the inner
`documentClientStub` would have answered 200 with the two sample planets. -/
theorem stubbed_client_has_no_scan :
    stubbedDynamoDB.scan.isNone = true ∧ stubbedDynamoDB.getItem.isNone = true ∧
    getPlanets stubbedDynamoDB testTableName =
      ⟨[], resJson 500 (Json.obj [("error", Json.str "Failed to fetch planets"),
                                  ("details", Json.str "dynamoDB.scan is not a function")])⟩ ∧
    getPlanetById stubbedDynamoDB testTableName "1" =
      ⟨[], resJson 500 (Json.obj [("error", Json.str "Failed to fetch planet"),
                                  ("details", Json.str "dynamoDB.getItem is not a function")])⟩ ∧
    (getPlanets (clientOf documentClientStub) testTableName).response =
      resJson 200 (Json.arr
        [planetJson 1 "Mercury" "Mercury is the smallest planet in our solar system."
           "https://example.com/mercury.jpg" "47.87 km/s" "57.91 million km",
         planetJson 2 "Venus" "Venus is the second planet from the Sun."
           "https://example.com/venus.jpg" "35.02 km/s" "108.2 million km"]) :=
  ⟨rfl, rfl, rfl, rfl, rfl⟩

end SolarSystem
